import Mathlib

/-
Verification development for the pfstratsim portfolio-strategy backtesting
library.

Shallow embedding conventions:
  * Timestamps are modelled as integers counting days; `timedelta(days=d)`
    becomes `+ d`.
  * Monetary amounts, prices, returns, risks and probabilities are
    modelled as rationals.
  * A price DataFrame is modelled as a list of (asset name, price series)
    pairs; a window slice of the global price frame is identified by its
    (oldest_time, latest_time) bounds.
  * External numerical collaborators (scipy statistical tests, pypfopt
    return/risk estimators, numpy sqrt) are out of scope per the spec and
    are taken as function parameters of the embedded operations.
  * A Python value None is modelled by `Option.none`; Python truthiness of
    an `Option Bool` is `pyTruthy`; the Python comparison `x == False` on
    an `Option Bool` is `pyEqFalse` (None == False is False in Python).
-/

/-- Truthiness of a Python value that is either None or a bool. -/
def pyTruthy : Option Bool → Bool
  | some b => b
  | none => false

/-- The Python comparison `x == False` for x either None or a bool:
None == False evaluates to False in Python. -/
def pyEqFalse : Option Bool → Bool
  | some b => !b
  | none => false

/- ----------------------------------------------------------------
   Triggers (src/pfstratsim/triggers/)
   ---------------------------------------------------------------- -/

/-- Embeds RegularBasis.assess (regular_basis.py).
If the rebalancing time list is nonempty, rebalancing is required iff
the last rebalancing time plus the interval is at most the current time;
otherwise it is required.  The diagnostic slot is always None. -/
def RegularBasis.assess (reblncng_intrvl_day : ℤ) (crnt_time : ℤ)
    (reblncng_time_list : List ℤ) : Bool × Option Unit :=
  if h : reblncng_time_list ≠ [] then
    (decide (reblncng_time_list.getLast h + reblncng_intrvl_day ≤ crnt_time), none)
  else
    (true, none)

/-- A per-asset price window: (asset name, price series) pairs. -/
def PriceFrame : Type := List (String × List ℚ)

/-- Embeds the per-asset p-value computation inside
IdenticalDistributionTest.assess (identical_distribution_test.py).
The scipy two-sample tests are external collaborators, passed as the
function parameters adTest and ksTest.  Under the Anderson-Darling
method the asset named CASH is given the constant 0.25 (the maximum
value the scipy anderson_ksamp p-value can attain) instead of a test
result; an unsupported method gives None. -/
def IdenticalDistributionTest.pValue (adTest ksTest : List ℚ → List ℚ → ℚ)
    (test_method : String) (asset_name : String)
    (crnt_returns prev_returns : List ℚ) : Option ℚ :=
  if test_method = "anderson_darling" then
    if asset_name = "CASH" then some (1/4)
    else some (adTest crnt_returns prev_returns)
  else if test_method = "kolmogorov_smirnov" then
    some (ksTest crnt_returns prev_returns)
  else
    none

/-- The minimum of a list of optional rationals, skipping the undefined
entries, as the pandas DataFrame min-then-min with skipna does on a
single-row frame; an all-undefined (or empty) list has no minimum. -/
def dfMinSkipNA : List (Option ℚ) → Option ℚ
  | [] => none
  | none :: rest => dfMinSkipNA rest
  | some v :: rest =>
    match dfMinSkipNA rest with
    | none => some v
    | some m => some (min v m)

/-- The per-asset identical-distribution probability row built by
IdenticalDistributionTest.assess: for each asset of the current window,
its p-value against the like-named series of the previous window.
calcReturns embeds the external calc_asset_returns estimator. -/
def IdenticalDistributionTest.probs (adTest ksTest : List ℚ → List ℚ → ℚ)
    (calcReturns : List ℚ → List ℚ) (test_method : String)
    (crnt_prices prev_prices : PriceFrame) : List (String × Option ℚ) :=
  let prev_returns : List (String × List ℚ) :=
    prev_prices.map (fun a => (a.1, calcReturns a.2))
  crnt_prices.map (fun a =>
    (a.1, IdenticalDistributionTest.pValue adTest ksTest test_method a.1
            (calcReturns a.2) ((prev_returns.lookup a.1).getD [])))

/-- Embeds IdenticalDistributionTest.assess.  With no previous prices the
result is (True, None).  Otherwise the per-asset probability row is
built, tagged with the current time, and rebalancing is required iff the
minimum defined p-value is at most the probability threshold (the pandas
min skips NaN entries, and NaN <= threshold is False when all entries
are NaN). -/
def IdenticalDistributionTest.assess (adTest ksTest : List ℚ → List ℚ → ℚ)
    (calcReturns : List ℚ → List ℚ) (test_method : String) (prob_thrshld : ℚ)
    (crnt_time : ℤ) (crnt_prices : PriceFrame)
    (prev_prices : Option PriceFrame) :
    Bool × Option (ℤ × List (String × Option ℚ)) :=
  match prev_prices with
  | none => (true, none)
  | some pp =>
    let idntcl_dstrbtn_prob :=
      IdenticalDistributionTest.probs adTest ksTest calcReturns test_method
        crnt_prices pp
    let is_reblncng :=
      match dfMinSkipNA (idntcl_dstrbtn_prob.map Prod.snd) with
      | some m => decide (m ≤ prob_thrshld)
      | none => false
    (is_reblncng, some (crnt_time, idntcl_dstrbtn_prob))

/- ----------------------------------------------------------------
   Problems (src/pfstratsim/problems/)
   ---------------------------------------------------------------- -/

/-- Embeds the concrete pyomo optimization model that Problem builds:
the per-asset parameters, the decision variables (one proportion per
asset, bounded [0,1], plus portfolio return and nonnegative risk), and
the index set RangeSet(0, num_assets - 1) recorded as its size.
Variables start unset in pyomo; their numeric values are only read after
a solver writes them, so the unset state is carried as 0 here.  The
declarative objective and constraint objects carry no data read by the
embedded claims and are not represented. -/
structure CncrtModel where
  set_asset : ℕ
  asset_expctd_returns : List ℚ
  asset_expctd_risks : List ℚ
  asset_expctd_corr_cf : List (List ℚ)
  asset_props : List ℚ
  prtfl_expctd_return : ℚ
  prtfl_expctd_risk : ℚ
deriving DecidableEq

/-- Embeds Problem._build_cncrt_model (problem.py): the parameter values
come from the statistics of the price window, one proportion variable is
created per asset. -/
def Problem.buildCncrtModel (num_assets : ℕ)
    (asset_expctd_returns asset_expctd_risks : List ℚ)
    (asset_expctd_corr_cf : List (List ℚ)) : CncrtModel :=
  { set_asset := num_assets
    asset_expctd_returns := asset_expctd_returns
    asset_expctd_risks := asset_expctd_risks
    asset_expctd_corr_cf := asset_expctd_corr_cf
    asset_props := List.replicate num_assets 0
    prtfl_expctd_return := 0
    prtfl_expctd_risk := 0 }

/-- Embeds Problem._validate_model (problem.py): the base class always
reports success. -/
def Problem.validateModel : Bool := true

/-- Embeds SharpeRatioMaximization._validate_model
(sharpe_ratio_maximization.py): start from the base result, then report
failure when 0.0 occurs among the asset expected risks (a warning is
emitted, no exception is raised). -/
def SharpeRatioMaximization.validateModel (asset_expctd_risks : List ℚ) : Bool :=
  let is_success := Problem.validateModel
  if 0 ∈ asset_expctd_risks then false else is_success

/-- Embeds Problem.define as specialized by SharpeRatioMaximization:
reset recomputes the statistics of the price window through the external
estimators calcReturns, calcRisks and calcCorrCf, the concrete model is
built, and the validation result is returned. -/
def SharpeRatioMaximization.define
    (calcReturns calcRisks : PriceFrame → List ℚ)
    (calcCorrCf : PriceFrame → List (List ℚ))
    (prices : PriceFrame) (crnt_time : ℤ) : Bool × CncrtModel × ℤ :=
  let asset_expctd_risks := calcRisks prices
  let model := Problem.buildCncrtModel prices.length (calcReturns prices)
    asset_expctd_risks (calcCorrCf prices)
  (SharpeRatioMaximization.validateModel asset_expctd_risks, model, crnt_time)

/- ----------------------------------------------------------------
   Solvers (src/pfstratsim/solvers/)
   ---------------------------------------------------------------- -/

/-- Embeds EqualProportion.solve (equal_proportion.py): every proportion
variable is set to 1/len(model.asset_props); the portfolio expected
return is accumulated as the sum over the asset index set of expected
return times proportion; the portfolio expected risk is the square root
(external numpy, parameter sqrtFn) of the accumulated variance form.
The Python method body ends without a return statement, so the call
evaluates to None: the first component is none. -/
def EqualProportion.solve (sqrtFn : ℚ → ℚ) (model : CncrtModel) :
    Option Bool × CncrtModel :=
  let props := List.replicate model.asset_props.length
    ((1 : ℚ) / (model.asset_props.length : ℚ))
  let prtfl_expctd_return := (List.range model.set_asset).foldl
    (fun acc a => acc + model.asset_expctd_returns.getD a 0 * props.getD a 0) 0
  let prtfl_expctd_var := (List.range model.set_asset).foldl
    (fun acc a => (List.range model.set_asset).foldl
      (fun acc2 a1 => acc2 +
        (model.asset_expctd_corr_cf.getD a []).getD a1 0 *
        model.asset_expctd_risks.getD a 0 * model.asset_expctd_risks.getD a1 0 *
        props.getD a 0 * props.getD a1 0) acc) 0
  (none, { model with
            asset_props := props
            prtfl_expctd_return := prtfl_expctd_return
            prtfl_expctd_risk := sqrtFn prtfl_expctd_var })

/-- The attributes the Solver context stores after a successful solve
(solver.py): the asset proportions, the per-asset expected returns and
risks, and the portfolio expected return and risk, all read back from
the concrete model, in frames indexed by the defining time of the
problem. -/
structure SolverAttrs where
  time : ℤ
  asset_props : List ℚ
  asset_expctd_returns : List ℚ
  asset_expctd_risks : List ℚ
  prtfl_expctd_return : ℚ
  prtfl_expctd_risk : ℚ
deriving DecidableEq

instance : Inhabited SolverAttrs :=
  ⟨{ time := 0, asset_props := [], asset_expctd_returns := [],
     asset_expctd_risks := [], prtfl_expctd_return := 0,
     prtfl_expctd_risk := 0 }⟩

/-- Embeds Solver.solve (solver.py), the strategy-pattern context: it
calls the concrete solver on the model of the problem, and only if that
result is truthy does it populate its attribute set from the model
values; the result of the concrete call is passed through unchanged.
The previously stored attributes (None before any successful solve)
remain otherwise. -/
def Solver.solve (cncrtSolve : CncrtModel → Option Bool × CncrtModel)
    (crnt_time : ℤ) (model : CncrtModel) (prev_attrs : Option SolverAttrs) :
    Option Bool × CncrtModel × Option SolverAttrs :=
  let res := cncrtSolve model
  let is_success := res.1
  let model := res.2
  let attrs :=
    if pyTruthy is_success then
      some { time := crnt_time
             asset_props := model.asset_props
             asset_expctd_returns := model.asset_expctd_returns
             asset_expctd_risks := model.asset_expctd_risks
             prtfl_expctd_return := model.prtfl_expctd_return
             prtfl_expctd_risk := model.prtfl_expctd_risk }
    else prev_attrs
  (is_success, model, attrs)

/- ----------------------------------------------------------------
   Simulation engine (src/pfstratsim/simulations/simulation.py)
   ---------------------------------------------------------------- -/

/-- A window slice of the global price frame, identified by its
(oldest time, latest time) bounds; the slice content is a pure function
of the bounds and the fixed global price frame. -/
def WindowBounds : Type := ℤ × ℤ

instance : DecidableEq WindowBounds := instDecidableEqProd

/-- The per-series time-indexed history dictionary data_history built by
Simulation.execute, restricted to the series the loop itself appends to.
A series is a list of (index timestamp, row payload) pairs; pd.concat
along axis 0 is list append. -/
structure DataHistory where
  idntcl_dstrbtn_prob : List (ℤ × List (String × Option ℚ))
  asset_expctd_returns : List (ℤ × List ℚ)
  asset_expctd_risks : List (ℤ × List ℚ)
  asset_expctd_valtns : List (ℤ × List ℚ)
  prtfl_expctd_return : List (ℤ × ℚ)
  prtfl_expctd_risk : List (ℤ × ℚ)
  prtfl_expctd_valtn : List (ℤ × ℚ)
  asset_obsrvd_returns : List (ℤ × List ℚ)
  asset_obsrvd_risks : List (ℤ × List ℚ)
  asset_obsrvd_valtns : List (ℤ × List ℚ)
  prtfl_obsrvd_return : List (ℤ × ℚ)
  prtfl_obsrvd_risk : List (ℤ × ℚ)
  prtfl_obsrvd_valtn : List (ℤ × ℚ)
  asset_returns : List (ℤ × List ℚ)
  asset_valtns : List (ℤ × List ℚ)
  asset_valtns_reblncd : List (ℤ × List ℚ)
  prtfl_return : List (ℤ × ℚ)
  prtfl_valtn : List (ℤ × ℚ)
  asset_props : List (ℤ × List ℚ)
deriving DecidableEq

/-- The empty history the loop starts from. -/
def DataHistory.empty : DataHistory :=
  { idntcl_dstrbtn_prob := [], asset_expctd_returns := [],
    asset_expctd_risks := [], asset_expctd_valtns := [],
    prtfl_expctd_return := [], prtfl_expctd_risk := [],
    prtfl_expctd_valtn := [], asset_obsrvd_returns := [],
    asset_obsrvd_risks := [], asset_obsrvd_valtns := [],
    prtfl_obsrvd_return := [], prtfl_obsrvd_risk := [],
    prtfl_obsrvd_valtn := [], asset_returns := [], asset_valtns := [],
    asset_valtns_reblncd := [], prtfl_return := [], prtfl_valtn := [],
    asset_props := [] }

/-- Embeds the edit_index helper of simulation.py for the only way it is
called, with edited_index = -1: the index of the last row is rewritten
to the given date-time. -/
def edit_index {α : Type} (data : List (ℤ × α)) (date_time : ℤ) : List (ℤ × α) :=
  match data.getLast? with
  | none => data
  | some row => data.dropLast ++ [(date_time, row.2)]

/-- The fixed collaborators and parameters of one Simulation.execute
run.  The trigger strategy, the problem define step, the concrete solver
call and its read-back attributes, and the utils estimators
(calc_asset_obsrvd_returns, calc_asset_obsrvd_risks,
calc_prtfl_obsrvd_return, calc_prtfl_obsrvd_risk) are external to the
loop and enter as functions of the data they are actually given: the
window bounds identifying the sliced prices, the current time, the
rebalancing time list, and the asset proportions. -/
structure SimEnv where
  prices_index : List ℤ
  start_time : ℤ
  end_time : ℤ
  init_prtfl_valtn : ℚ
  window_day : ℤ
  min_reblncng_intrvl_day : ℤ
  trigger : ℤ → WindowBounds → Option WindowBounds → List ℤ →
    Bool × Option (ℤ × List (String × Option ℚ))
  problemDefine : WindowBounds → ℤ → Bool
  cncrtSolve : WindowBounds → ℤ → Option Bool
  solveAttrs : WindowBounds → ℤ → SolverAttrs
  calcAssetObsrvdReturns : WindowBounds → List ℚ
  calcAssetObsrvdRisks : WindowBounds → List ℚ
  calcPrtflObsrvdReturn : WindowBounds → List ℚ → ℚ
  calcPrtflObsrvdRisk : WindowBounds → List ℚ → ℚ
  calcAssetPerfReturns : WindowBounds → List ℚ

/-- The loop-carried state of Simulation.execute: the current time, the
rebalancing time list, the backed-up previous window, asset valuations
and portfolio valuation (None until the first successful rebalancing,
as the Python locals are unbound until first assigned), the attribute
set of the Solver context (None until its first successful solve), and
the accumulated history. -/
structure SimState where
  crnt_time : ℤ
  reblncng_time_list : List ℤ
  prev_prices : Option WindowBounds
  prev_asset_valtns : Option (List ℚ)
  prev_prtfl_valtn : Option ℚ
  solver_attrs : Option SolverAttrs
  hist : DataHistory

/-- The initial state of the loop. -/
def SimState.init (E : SimEnv) : SimState :=
  { crnt_time := E.start_time, reblncng_time_list := [],
    prev_prices := none, prev_asset_valtns := none,
    prev_prtfl_valtn := none, solver_attrs := none,
    hist := DataHistory.empty }

/-- One iteration of the while loop of Simulation.execute (the body for
a given crnt_time <= end_time).  The result is None exactly when the
Python body would raise: reading the attribute properties of the Solver
context before any successful solve ever populated them.  Every normal
exit advances crnt_time, by one day when the timestamp is absent from
the price index and by min_reblncng_intrvl_day otherwise. -/
def Simulation.step (E : SimEnv) (s : SimState) : Option SimState :=
  if s.crnt_time ∈ E.prices_index then
    let oldest_time := s.crnt_time - E.window_day
    let latest_time := s.crnt_time - 1
    let crnt_prices : WindowBounds := (oldest_time, latest_time)
    let assessed := E.trigger s.crnt_time crnt_prices s.prev_prices
      s.reblncng_time_list
    let is_reblncng := assessed.1
    let hist0 := { s.hist with idntcl_dstrbtn_prob :=
      s.hist.idntcl_dstrbtn_prob ++ assessed.2.toList }
    let branch : DataHistory × ℚ :=
      if s.reblncng_time_list = [] then
        -- For the first time: seed the three valuation series.
        ({ hist0 with
            prtfl_expctd_valtn :=
              hist0.prtfl_expctd_valtn ++ [(s.crnt_time, E.init_prtfl_valtn)]
            prtfl_obsrvd_valtn :=
              hist0.prtfl_obsrvd_valtn ++ [(s.crnt_time, E.init_prtfl_valtn)]
            prtfl_valtn :=
              hist0.prtfl_valtn ++ [(s.crnt_time, E.init_prtfl_valtn)] },
          E.init_prtfl_valtn)
      else
        -- For the other times: expected, observed and performance tracks.
        let prev_time := s.crnt_time - E.min_reblncng_intrvl_day
        let attrs := s.solver_attrs.getD default
        let prev_asset_valtns := s.prev_asset_valtns.getD []
        let prev_prtfl_valtn := s.prev_prtfl_valtn.getD 0
        -- Expected values; the frames read back from the solver carry the
        -- defining time of the problem as index, then edit_index rewrites
        -- the just-appended row to prev_time.
        let asset_expctd_valtns := List.zipWith (fun v r => v * (1 + r))
          prev_asset_valtns attrs.asset_expctd_returns
        let prtfl_expctd_valtn := prev_prtfl_valtn * (1 + attrs.prtfl_expctd_return)
        -- Observed values over the window from the last rebalancing.
        let prev_crnt_prices : WindowBounds :=
          ((s.reblncng_time_list.getLast?).getD 0, latest_time)
        let asset_obsrvd_returns := E.calcAssetObsrvdReturns prev_crnt_prices
        let asset_obsrvd_risks := E.calcAssetObsrvdRisks prev_crnt_prices
        let asset_obsrvd_valtns := List.zipWith (fun v r => v * (1 + r))
          prev_asset_valtns asset_obsrvd_returns
        let prtfl_obsrvd_return :=
          E.calcPrtflObsrvdReturn prev_crnt_prices attrs.asset_props
        let prtfl_obsrvd_risk :=
          E.calcPrtflObsrvdRisk prev_crnt_prices attrs.asset_props
        let prtfl_obsrvd_valtn := prev_prtfl_valtn * (1 + prtfl_obsrvd_return)
        -- Performance over the minimal step (first and last rows only).
        let asset_returns := E.calcAssetPerfReturns prev_crnt_prices
        let asset_valtns := List.zipWith (fun v r => v * (1 + r))
          prev_asset_valtns asset_returns
        let prtfl_return := (asset_valtns.sum - prev_asset_valtns.sum) /
          prev_asset_valtns.sum
        let prtfl_valtn := prev_prtfl_valtn * (1 + prtfl_return)
        ({ hist0 with
            asset_expctd_returns := edit_index
              (hist0.asset_expctd_returns ++ [(attrs.time, attrs.asset_expctd_returns)]) prev_time
            asset_expctd_risks := edit_index
              (hist0.asset_expctd_risks ++ [(attrs.time, attrs.asset_expctd_risks)]) prev_time
            asset_expctd_valtns := edit_index
              (hist0.asset_expctd_valtns ++ [(attrs.time, asset_expctd_valtns)]) prev_time
            prtfl_expctd_return := edit_index
              (hist0.prtfl_expctd_return ++ [(attrs.time, attrs.prtfl_expctd_return)]) prev_time
            prtfl_expctd_risk := edit_index
              (hist0.prtfl_expctd_risk ++ [(attrs.time, attrs.prtfl_expctd_risk)]) prev_time
            prtfl_expctd_valtn := edit_index
              (hist0.prtfl_expctd_valtn ++ [(attrs.time, prtfl_expctd_valtn)]) prev_time
            asset_obsrvd_returns :=
              hist0.asset_obsrvd_returns ++ [(s.crnt_time, asset_obsrvd_returns)]
            asset_obsrvd_risks :=
              hist0.asset_obsrvd_risks ++ [(s.crnt_time, asset_obsrvd_risks)]
            asset_obsrvd_valtns :=
              hist0.asset_obsrvd_valtns ++ [(s.crnt_time, asset_obsrvd_valtns)]
            prtfl_obsrvd_return :=
              hist0.prtfl_obsrvd_return ++ [(s.crnt_time, prtfl_obsrvd_return)]
            prtfl_obsrvd_risk :=
              hist0.prtfl_obsrvd_risk ++ [(s.crnt_time, prtfl_obsrvd_risk)]
            prtfl_obsrvd_valtn :=
              hist0.prtfl_obsrvd_valtn ++ [(s.crnt_time, prtfl_obsrvd_valtn)]
            asset_returns :=
              hist0.asset_returns ++ [(s.crnt_time, asset_returns)]
            asset_valtns :=
              hist0.asset_valtns ++ [(s.crnt_time, asset_valtns)]
            prtfl_return :=
              hist0.prtfl_return ++ [(s.crnt_time, prtfl_return)]
            prtfl_valtn :=
              hist0.prtfl_valtn ++ [(s.crnt_time, prtfl_valtn)] },
          prtfl_valtn)
    let hist1 := branch.1
    let prtfl_valtn := branch.2
    if ¬ is_reblncng then
      some { s with
              hist := hist1
              crnt_time := s.crnt_time + E.min_reblncng_intrvl_day }
    else
      -- Define a problem at the current date-time and solve the problem.
      if E.problemDefine crnt_prices s.crnt_time = false then
        some { s with
                hist := hist1
                crnt_time := s.crnt_time + E.min_reblncng_intrvl_day }
      else
        let is_success := E.cncrtSolve crnt_prices s.crnt_time
        if pyEqFalse is_success then
          some { s with
                  hist := hist1
                  crnt_time := s.crnt_time + E.min_reblncng_intrvl_day }
        else
          -- The Solver context only populates its attributes when the
          -- concrete result is truthy; the simulation then reads them.
          let solver_attrs := if pyTruthy is_success
            then some (E.solveAttrs crnt_prices s.crnt_time)
            else s.solver_attrs
          match solver_attrs with
          | none => none  -- attribute read fails: never populated
          | some attrs =>
            let asset_valtns_reblncd := attrs.asset_props.map
              (fun p => prtfl_valtn * p)
            some { crnt_time := s.crnt_time + E.min_reblncng_intrvl_day
                   reblncng_time_list := s.reblncng_time_list ++ [s.crnt_time]
                   prev_prices := some crnt_prices
                   prev_asset_valtns := some asset_valtns_reblncd
                   prev_prtfl_valtn := some prtfl_valtn
                   solver_attrs := solver_attrs
                   hist := { hist1 with
                     asset_props :=
                       hist1.asset_props ++ [(attrs.time, attrs.asset_props)]
                     asset_valtns_reblncd :=
                       hist1.asset_valtns_reblncd ++
                         [(attrs.time, asset_valtns_reblncd)] } }
  else
    -- Ignore date-times that are not included in the prices' date-times.
    some { s with crnt_time := s.crnt_time + 1 }

/-- The while loop of Simulation.execute, run with explicit fuel.  The
outer None means the fuel ran out before the loop condition failed; the
inner Except.error marks a run the Python code would abort by raising;
Except.ok carries the final state once crnt_time exceeds end_time. -/
def Simulation.loop (E : SimEnv) : ℕ → SimState → Option (Except Unit SimState)
  | 0, s => if E.end_time < s.crnt_time then some (Except.ok s) else none
  | n + 1, s =>
    if E.end_time < s.crnt_time then some (Except.ok s)
    else
      match Simulation.step E s with
      | none => some (Except.error ())
      | some s2 => Simulation.loop E n s2

/- ----------------------------------------------------------------
   Helper lemmas
   ---------------------------------------------------------------- -/

/-- The skipna minimum is below the threshold exactly when some defined
entry of the list is. -/
lemma dfMinSkipNA_le_iff (t : ℚ) : ∀ l : List (Option ℚ),
    ((match dfMinSkipNA l with
      | some m => decide (m ≤ t)
      | none => false) = true) ↔ ∃ v : ℚ, some v ∈ l ∧ v ≤ t := by
  intro l
  induction l with
  | nil => simp [dfMinSkipNA]
  | cons hd tl ih =>
    cases hd with
    | none =>
      rw [show dfMinSkipNA (none :: tl) = dfMinSkipNA tl from rfl, ih]
      constructor
      · rintro ⟨v, hv, hle⟩
        exact ⟨v, List.mem_cons_of_mem _ hv, hle⟩
      · rintro ⟨v, hv, hle⟩
        rcases List.mem_cons.mp hv with h | h
        · exact absurd h (by simp)
        · exact ⟨v, h, hle⟩
    | some v0 =>
      rw [show dfMinSkipNA (some v0 :: tl) =
            (match dfMinSkipNA tl with
              | none => some v0
              | some m => some (min v0 m)) from rfl]
      cases h : dfMinSkipNA tl with
      | none =>
        rw [h] at ih
        simp only [Bool.false_eq_true, false_iff] at ih
        constructor
        · intro hv0
          exact ⟨v0, List.mem_cons_self _ _, of_decide_eq_true hv0⟩
        · rintro ⟨v, hv, hle⟩
          rcases List.mem_cons.mp hv with hh | hh
          · rcases Option.some.inj hh with rfl
            exact decide_eq_true hle
          · exact absurd ⟨v, hh, hle⟩ ih
      | some m =>
        rw [h] at ih
        constructor
        · intro hmin
          rcases min_le_iff.mp (of_decide_eq_true hmin) with hc | hc
          · exact ⟨v0, List.mem_cons_self _ _, hc⟩
          · rcases ih.mp (decide_eq_true hc) with ⟨v, hv, hle⟩
            exact ⟨v, List.mem_cons_of_mem _ hv, hle⟩
        · rintro ⟨v, hv, hle⟩
          rcases List.mem_cons.mp hv with hh | hh
          · rcases Option.some.inj hh with rfl
            exact decide_eq_true (min_le_iff.mpr (Or.inl hle))
          · have := ih.mpr ⟨v, hh, hle⟩
            exact decide_eq_true (min_le_iff.mpr (Or.inr (of_decide_eq_true this)))

/-- The skipna minimum of an all-undefined list does not exist. -/
lemma dfMinSkipNA_all_none : ∀ l : List (Option ℚ),
    (∀ x ∈ l, x = none) → dfMinSkipNA l = none := by
  intro l
  induction l with
  | nil => intro _; rfl
  | cons hd tl ih =>
    intro h
    have hhd := h hd (List.mem_cons_self _ _)
    subst hhd
    exact ih (fun x hx => h x (List.mem_cons_of_mem _ hx))

/- ----------------------------------------------------------------
   Claim theorems: triggers
   ---------------------------------------------------------------- -/

/-- C3: RegularBasis.assess with rebalance interval d returns
mustRebalance = true with no diagnostic when no prior rebalance exists;
otherwise mustRebalance = true iff now minus the last rebalance time is
at least d days, still with no diagnostic; and with d = 28 and a last
rebalance at day 0 it returns false on each of days 1 through 27 and
true at day 28. -/
theorem regular_basis_assess_spec (d now : ℤ) (lst : List ℤ) :
    (lst = [] → RegularBasis.assess d now lst = (true, none)) ∧
    (∀ h : lst ≠ [],
      ((RegularBasis.assess d now lst).1 = true ↔ d ≤ now - lst.getLast h) ∧
      (RegularBasis.assess d now lst).2 = none) ∧
    ((∀ k : ℤ, 1 ≤ k → k ≤ 27 → (RegularBasis.assess 28 k [0]).1 = false) ∧
      (RegularBasis.assess 28 28 [0]).1 = true) := by
  refine ⟨?_, ?_, ?_, ?_⟩
  · intro h
    simp [RegularBasis.assess, h]
  · intro h
    constructor
    · simp only [RegularBasis.assess, dif_pos h, decide_eq_true_eq]
      omega
    · simp only [RegularBasis.assess, dif_pos h]
  · intro k h1 h2
    simp only [RegularBasis.assess, dif_pos (by simp : ([0] : List ℤ) ≠ []),
      List.getLast_singleton, decide_eq_false_iff_not]
    omega
  · decide

/-- C3 witness: at the concrete inputs d = 28, last rebalance at day 0,
assess is false at day 5 and true at day 28. -/
theorem regular_basis_assess_spec_witness :
    (RegularBasis.assess 28 5 [0]).1 = false ∧
    (RegularBasis.assess 28 28 [0]).1 = true :=
  ⟨(regular_basis_assess_spec 28 5 [0]).2.2.1 5 (by decide) (by decide),
   (regular_basis_assess_spec 28 28 [0]).2.2.2⟩

/-- C4: IdenticalDistributionTest.assess returns mustRebalance = true
with no diagnostic on the first call (no previous window); on every
later call it always returns the per-asset p-value row (tagged with the
current time) as diagnostic, and mustRebalance = true iff some asset has
a defined p-value at most the probability threshold, which is exactly
the minimum defined p-value being at most the threshold. -/
theorem identical_distribution_test_assess_spec
    (adTest ksTest : List ℚ → List ℚ → ℚ) (calcReturns : List ℚ → List ℚ)
    (method : String) (t : ℚ) (now : ℤ) (cp : PriceFrame) :
    (IdenticalDistributionTest.assess adTest ksTest calcReturns method t now
        cp none = (true, none)) ∧
    (∀ pp : PriceFrame,
      (IdenticalDistributionTest.assess adTest ksTest calcReturns method t now
          cp (some pp)).2 =
        some (now, IdenticalDistributionTest.probs adTest ksTest calcReturns
          method cp pp) ∧
      ((IdenticalDistributionTest.assess adTest ksTest calcReturns method t now
          cp (some pp)).1 = true ↔
        ∃ p ∈ IdenticalDistributionTest.probs adTest ksTest calcReturns
            method cp pp, ∃ v : ℚ, p.2 = some v ∧ v ≤ t)) := by
  refine ⟨rfl, fun pp => ⟨rfl, ?_⟩⟩
  show (match dfMinSkipNA ((IdenticalDistributionTest.probs adTest ksTest
      calcReturns method cp pp).map Prod.snd) with
    | some m => decide (m ≤ t)
    | none => false) = true ↔ _
  rw [dfMinSkipNA_le_iff]
  constructor
  · rintro ⟨v, hv, hle⟩
    rcases List.mem_map.mp hv with ⟨p, hp, hsnd⟩
    exact ⟨p, hp, v, hsnd.symm ▸ rfl, hle⟩
  · rintro ⟨p, hp, v, hsnd, hle⟩
    exact ⟨v, List.mem_map.mpr ⟨p, hp, hsnd ▸ rfl⟩, hle⟩

/-- C5 counterexample: under the Kolmogorov-Smirnov method the asset
named CASH is not exempt: at a concrete input where the external KS test
evaluates to 0, the p-value recorded for CASH is that computed test
result 0, which is neither the maximum attainable KS p-value 1 nor the
0.25 used for the Anderson-Darling exemption. -/
theorem identical_distribution_cash_ks_counterexample :
    IdenticalDistributionTest.pValue (fun _ _ => 0) (fun _ _ => 0)
      "kolmogorov_smirnov" "CASH" [0, 0] [0, 0] = some 0 ∧
    IdenticalDistributionTest.pValue (fun _ _ => 0) (fun _ _ => 0)
      "kolmogorov_smirnov" "CASH" [0, 0] [0, 0] ≠ some 1 ∧
    IdenticalDistributionTest.pValue (fun _ _ => 0) (fun _ _ => 0)
      "kolmogorov_smirnov" "CASH" [0, 0] [0, 0] ≠ some (1/4) := by
  have h0 : IdenticalDistributionTest.pValue (fun _ _ => 0) (fun _ _ => 0)
      "kolmogorov_smirnov" "CASH" [0, 0] [0, 0] = some 0 := rfl
  refine ⟨h0, ?_, ?_⟩ <;> rw [h0] <;>
    exact fun h => absurd (Option.some.inj h) (by norm_num)

/-- C5 amended: the risk-free/cash-like asset exemption applies only
under the Anderson-Darling k-sample method, where CASH is assigned that
test's maximum attainable p-value 0.25 instead of a computed result
while every other asset gets the computed Anderson-Darling p-value;
under the Kolmogorov-Smirnov method every asset, CASH included, gets the
computed Kolmogorov-Smirnov p-value. -/
theorem identical_distribution_cash_exemption
    (adTest ksTest : List ℚ → List ℚ → ℚ) (name : String)
    (r1 r2 : List ℚ) :
    (IdenticalDistributionTest.pValue adTest ksTest "anderson_darling"
      "CASH" r1 r2 = some (1/4)) ∧
    (name ≠ "CASH" →
      IdenticalDistributionTest.pValue adTest ksTest "anderson_darling"
        name r1 r2 = some (adTest r1 r2)) ∧
    (IdenticalDistributionTest.pValue adTest ksTest "kolmogorov_smirnov"
      name r1 r2 = some (ksTest r1 r2)) := by
  refine ⟨rfl, fun h => ?_, rfl⟩
  simp [IdenticalDistributionTest.pValue, h]

/-- C5 witness: the amended claim at a concrete non-CASH asset under the
Anderson-Darling method. -/
theorem identical_distribution_cash_exemption_witness :
    ("GOLD" ≠ "CASH") ∧
    IdenticalDistributionTest.pValue (fun _ _ => 1/2) (fun _ _ => 1/3)
      "anderson_darling" "GOLD" [0] [0] = some ((fun _ _ => (1:ℚ)/2) [(0:ℚ)] [(0:ℚ)]) :=
  ⟨by decide,
   (identical_distribution_cash_exemption (fun _ _ => 1/2) (fun _ _ => 1/3)
     "GOLD" [0] [0]).2.1 (by decide)⟩

/-- C6: with an unsupported test method and a previous window available,
every p-value of the returned diagnostic row is the undefined sentinel
(None), the assess call returns normally with that row, and the
minimum comparison yields mustRebalance = false when every p-value is
undefined. -/
theorem identical_distribution_unsupported_method
    (adTest ksTest : List ℚ → List ℚ → ℚ) (calcReturns : List ℚ → List ℚ)
    (method : String) (t : ℚ) (now : ℤ) (cp pp : PriceFrame)
    (h1 : method ≠ "anderson_darling") (h2 : method ≠ "kolmogorov_smirnov") :
    (∀ p ∈ IdenticalDistributionTest.probs adTest ksTest calcReturns method
        cp pp, p.2 = none) ∧
    (IdenticalDistributionTest.assess adTest ksTest calcReturns method t now
        cp (some pp)).1 = false ∧
    (IdenticalDistributionTest.assess adTest ksTest calcReturns method t now
        cp (some pp)).2 =
      some (now, IdenticalDistributionTest.probs adTest ksTest calcReturns
        method cp pp) := by
  have hall : ∀ p ∈ IdenticalDistributionTest.probs adTest ksTest calcReturns
      method cp pp, p.2 = none := by
    intro p hp
    rcases List.mem_map.mp hp with ⟨a, _, rfl⟩
    simp [IdenticalDistributionTest.pValue, h1, h2]
  refine ⟨hall, ?_, rfl⟩
  show (match dfMinSkipNA ((IdenticalDistributionTest.probs adTest ksTest
      calcReturns method cp pp).map Prod.snd) with
    | some m => decide (m ≤ t)
    | none => false) = false
  rw [dfMinSkipNA_all_none]
  intro x hx
  rcases List.mem_map.mp hx with ⟨p, hp, rfl⟩
  exact hall p hp

/-- C6 witness: the unsupported-method behavior at the concrete method
name undefined_method on a one-asset window. -/
theorem identical_distribution_unsupported_method_witness :
    (IdenticalDistributionTest.assess (fun _ _ => 0) (fun _ _ => 0)
      (fun _ => []) "undefined_method" (1/20) 3 [("A", [1, 2])]
      (some [("A", [1, 2])])).1 = false :=
  (identical_distribution_unsupported_method (fun _ _ => 0) (fun _ _ => 0)
    (fun _ => []) "undefined_method" (1/20) 3 [("A", [1, 2])]
    [("A", [1, 2])] (by decide) (by decide)).2.1

/- ----------------------------------------------------------------
   Claim theorems: problems
   ---------------------------------------------------------------- -/

/-- C7: SharpeRatioMaximization.define reports success = false exactly
when at least one expected asset risk computed from the price window is
zero; otherwise it reports success = true. -/
theorem sharpe_ratio_define_success_iff
    (calcReturns calcRisks : PriceFrame → List ℚ)
    (calcCorrCf : PriceFrame → List (List ℚ))
    (prices : PriceFrame) (now : ℤ) :
    (SharpeRatioMaximization.define calcReturns calcRisks calcCorrCf prices
        now).1 = false ↔ 0 ∈ calcRisks prices := by
  show SharpeRatioMaximization.validateModel (calcRisks prices) = false ↔ _
  rw [SharpeRatioMaximization.validateModel]
  split
  · simp_all
  · simp_all [Problem.validateModel]

/- ----------------------------------------------------------------
   Claim theorems: solvers
   ---------------------------------------------------------------- -/

/-- Left fold of repeated addition is the initial value plus the sum of
the images. -/
lemma foldl_add_map (f : ℕ → ℚ) : ∀ (l : List ℕ) (init : ℚ),
    l.foldl (fun acc a => acc + f a) init = init + (l.map f).sum := by
  intro l
  induction l with
  | nil => intro init; simp
  | cons hd tl ih =>
    intro init
    rw [List.foldl_cons, ih, List.map_cons, List.sum_cons]
    ring

/-- Summing a pointwise product with a constant pulls the constant out. -/
lemma sum_map_mul_const (f : ℕ → ℚ) (c : ℚ) : ∀ l : List ℕ,
    (l.map (fun a => f a * c)).sum = (l.map f).sum * c := by
  intro l
  induction l with
  | nil => simp
  | cons hd tl ih =>
    rw [List.map_cons, List.sum_cons, ih, List.map_cons, List.sum_cons, add_mul]

/-- Reading a list back at the indices of its range reproduces it. -/
lemma range_map_getD : ∀ l : List ℚ,
    (List.range l.length).map (fun a => l.getD a 0) = l := by
  intro l
  induction l with
  | nil => simp
  | cons hd tl ih =>
    rw [List.length_cons, List.range_succ_eq_map, List.map_cons, List.map_map]
    simp only [Function.comp_def, List.getD_cons_succ, List.getD_cons_zero]
    rw [ih]

/-- Reading inside the bounds of a replicated list gives the repeated
element. -/
lemma replicate_getD (c : ℚ) : ∀ (n a : ℕ), a < n →
    (List.replicate n c).getD a 0 = c := by
  intro n
  induction n with
  | zero => intro a ha; omega
  | succ m ih =>
    intro a ha
    cases a with
    | zero => rfl
    | succ b =>
      rw [List.replicate_succ, List.getD_cons_succ]
      exact ih b (by omega)

/-- C8: after EqualProportion writes its solution into a defined model
over N >= 1 assets (where the variable, parameter and index sets all
have size N, as Problem.buildCncrtModel makes them), every asset
proportion equals 1/N and the portfolio expected return variable equals
the arithmetic mean of the per-asset expected returns of the
formulation. -/
theorem equal_proportion_solve_spec (sqrtFn : ℚ → ℚ) (model : CncrtModel)
    (hset : model.set_asset = model.asset_props.length)
    (hlen : model.asset_expctd_returns.length = model.asset_props.length)
    (hpos : 1 ≤ model.asset_props.length) :
    (∀ p ∈ (EqualProportion.solve sqrtFn model).2.asset_props,
      p = 1 / (model.asset_props.length : ℚ)) ∧
    (EqualProportion.solve sqrtFn model).2.asset_props.length =
      model.asset_props.length ∧
    (EqualProportion.solve sqrtFn model).2.prtfl_expctd_return =
      model.asset_expctd_returns.sum / (model.asset_props.length : ℚ) := by
  refine ⟨?_, ?_, ?_⟩
  · intro p hp
    exact List.eq_of_mem_replicate hp
  · exact List.length_replicate _ _
  · show (List.range model.set_asset).foldl
      (fun acc a => acc + model.asset_expctd_returns.getD a 0 *
        (List.replicate model.asset_props.length
          ((1 : ℚ) / (model.asset_props.length : ℚ))).getD a 0) 0 =
      model.asset_expctd_returns.sum / (model.asset_props.length : ℚ)
    rw [foldl_add_map, zero_add, hset]
    have hrepl : ∀ a ∈ List.range model.asset_props.length,
        model.asset_expctd_returns.getD a 0 *
          (List.replicate model.asset_props.length
            ((1 : ℚ) / (model.asset_props.length : ℚ))).getD a 0 =
        model.asset_expctd_returns.getD a 0 *
          (1 / (model.asset_props.length : ℚ)) := by
      intro a ha
      rw [replicate_getD _ _ _ (List.mem_range.mp ha)]
    rw [List.map_congr_left hrepl,
      sum_map_mul_const (fun a => model.asset_expctd_returns.getD a 0)
        (1 / (model.asset_props.length : ℚ)) (List.range model.asset_props.length),
      ← hlen, range_map_getD, mul_one_div]

/-- C8 witness: on the two-asset model built from expected returns
1/10 and 1/50, EqualProportion yields proportions both 1/2 and portfolio
expected return (1/10 + 1/50) / 2. -/
theorem equal_proportion_solve_spec_witness :
    (∀ p ∈ (EqualProportion.solve id (Problem.buildCncrtModel 2
        [1/10, 1/50] [1/5, 1/20] [[1, 0], [0, 1]])).2.asset_props,
      p = 1 / (((Problem.buildCncrtModel 2 [1/10, 1/50] [1/5, 1/20]
        [[1, 0], [0, 1]]).asset_props.length : ℚ))) ∧
    (EqualProportion.solve id (Problem.buildCncrtModel 2
        [1/10, 1/50] [1/5, 1/20] [[1, 0], [0, 1]])).2.asset_props.length =
      (Problem.buildCncrtModel 2 [1/10, 1/50] [1/5, 1/20]
        [[1, 0], [0, 1]]).asset_props.length ∧
    (EqualProportion.solve id (Problem.buildCncrtModel 2
        [1/10, 1/50] [1/5, 1/20] [[1, 0], [0, 1]])).2.prtfl_expctd_return =
      (Problem.buildCncrtModel 2 [1/10, 1/50] [1/5, 1/20]
        [[1, 0], [0, 1]]).asset_expctd_returns.sum /
      (((Problem.buildCncrtModel 2 [1/10, 1/50] [1/5, 1/20]
        [[1, 0], [0, 1]]).asset_props.length : ℚ)) :=
  equal_proportion_solve_spec id
    (Problem.buildCncrtModel 2 [1/10, 1/50] [1/5, 1/20] [[1, 0], [0, 1]])
    rfl rfl (by simp [Problem.buildCncrtModel])

/-- C1: the claim fails on the code.  On a successfully defined two-asset
problem, EqualProportion.solve falls off the end of its body and the
call evaluates to None rather than True; the Solver context therefore
never populates its AllocationResult attributes (they stay None), and
the None result even escapes the is_success == False check of the
simulation loop.  Evaluated at the concrete failing input. -/
theorem equal_proportion_solve_reports_none :
    (SharpeRatioMaximization.define (fun _ => [1/10, 1/50])
      (fun _ => [1/5, 1/20]) (fun _ => [[1, 0], [0, 1]])
      [("A", [1]), ("B", [1])] 0).1 = true ∧
    (Solver.solve (EqualProportion.solve id) 0
      (SharpeRatioMaximization.define (fun _ => [1/10, 1/50])
        (fun _ => [1/5, 1/20]) (fun _ => [[1, 0], [0, 1]])
        [("A", [1]), ("B", [1])] 0).2.1 none).1 = none ∧
    (Solver.solve (EqualProportion.solve id) 0
      (SharpeRatioMaximization.define (fun _ => [1/10, 1/50])
        (fun _ => [1/5, 1/20]) (fun _ => [[1, 0], [0, 1]])
        [("A", [1]), ("B", [1])] 0).2.1 none).2.2 = none ∧
    pyEqFalse (Solver.solve (EqualProportion.solve id) 0
      (SharpeRatioMaximization.define (fun _ => [1/10, 1/50])
        (fun _ => [1/5, 1/20]) (fun _ => [[1, 0], [0, 1]])
        [("A", [1]), ("B", [1])] 0).2.1 none).1 = false := by
  refine ⟨?_, rfl, rfl, rfl⟩
  show SharpeRatioMaximization.validateModel [1/5, 1/20] = true
  rw [SharpeRatioMaximization.validateModel, Problem.validateModel]
  norm_num [List.mem_cons]

/- ----------------------------------------------------------------
   Claim theorems: simulation engine
   ---------------------------------------------------------------- -/

/-- C2: at any loop iteration whose timestamp is in the price index and
whose trigger demands rebalancing, if the problem definition reports
failure, or the solver call compares equal to False, then the iteration
completes normally, advances the current time by the minimum rebalancing
interval, and leaves the rolling allocation state untouched: the
rebalancing time list, the previous prices, the previous asset
valuations and the previous portfolio valuation are exactly as before. -/
theorem simulation_step_failure_frame (E : SimEnv) (s : SimState)
    (hin : s.crnt_time ∈ E.prices_index)
    (hfail : E.problemDefine (s.crnt_time - E.window_day, s.crnt_time - 1)
        s.crnt_time = false ∨
      pyEqFalse (E.cncrtSolve (s.crnt_time - E.window_day, s.crnt_time - 1)
        s.crnt_time) = true) :
    ∀ s2, Simulation.step E s = some s2 →
      s2.reblncng_time_list = s.reblncng_time_list ∧
      s2.prev_prices = s.prev_prices ∧
      s2.prev_asset_valtns = s.prev_asset_valtns ∧
      s2.prev_prtfl_valtn = s.prev_prtfl_valtn ∧
      s2.solver_attrs = s.solver_attrs ∧
      s2.crnt_time = s.crnt_time + E.min_reblncng_intrvl_day := by
  intro s2 hstep
  unfold Simulation.step at hstep
  rw [if_pos hin] at hstep
  by_cases htrig : (E.trigger s.crnt_time (s.crnt_time - E.window_day,
      s.crnt_time - 1) s.prev_prices s.reblncng_time_list).1 = true
  · rcases hfail with hdef | hsolve
    · simp only [htrig, hdef, eq_self_iff_true, not_true, ite_true,
        ite_false, Option.some.injEq] at hstep
      subst hstep
      exact ⟨rfl, rfl, rfl, rfl, rfl, rfl⟩
    · by_cases hdef : E.problemDefine (s.crnt_time - E.window_day,
          s.crnt_time - 1) s.crnt_time = false
      · simp only [htrig, hdef, eq_self_iff_true, not_true, ite_true,
          ite_false, Option.some.injEq] at hstep
        subst hstep
        exact ⟨rfl, rfl, rfl, rfl, rfl, rfl⟩
      · simp only [htrig, hdef, hsolve, eq_self_iff_true, not_true,
          not_false_iff, Bool.true_eq_false, Bool.false_eq_true, ite_true,
          ite_false, Option.some.injEq] at hstep
        subst hstep
        exact ⟨rfl, rfl, rfl, rfl, rfl, rfl⟩
  · simp only [htrig, Bool.not_eq_true, Bool.false_eq_true, not_false_iff,
      ite_true, ite_false, Option.some.injEq] at hstep
    subst hstep
    exact ⟨rfl, rfl, rfl, rfl, rfl, rfl⟩

/-- A concrete environment whose problem definition always reports
failure, used to exercise the failure frame at a concrete input. -/
def testEnvDefineFail : SimEnv :=
  { prices_index := [0]
    start_time := 0
    end_time := 0
    init_prtfl_valtn := 100
    window_day := 28
    min_reblncng_intrvl_day := 1
    trigger := fun _ _ _ _ => (true, none)
    problemDefine := fun _ _ => false
    cncrtSolve := fun _ _ => some true
    solveAttrs := fun _ t =>
      { time := t, asset_props := [1], asset_expctd_returns := [0],
        asset_expctd_risks := [1], prtfl_expctd_return := 0,
        prtfl_expctd_risk := 1 }
    calcAssetObsrvdReturns := fun _ => [0]
    calcAssetObsrvdRisks := fun _ => [1]
    calcPrtflObsrvdReturn := fun _ _ => 0
    calcPrtflObsrvdRisk := fun _ _ => 1
    calcAssetPerfReturns := fun _ => [0] }

/-- C2 witness: the failure frame at the concrete environment with a
failing problem definition, starting from the initial state. -/
theorem simulation_step_failure_frame_witness :
    (((SimState.init testEnvDefineFail).crnt_time ∈
        testEnvDefineFail.prices_index) ∧
      testEnvDefineFail.problemDefine
        ((SimState.init testEnvDefineFail).crnt_time -
          testEnvDefineFail.window_day,
         (SimState.init testEnvDefineFail).crnt_time - 1)
        (SimState.init testEnvDefineFail).crnt_time = false) ∧
    (∀ s2, Simulation.step testEnvDefineFail
        (SimState.init testEnvDefineFail) = some s2 →
      s2.reblncng_time_list =
        (SimState.init testEnvDefineFail).reblncng_time_list ∧
      s2.prev_prices = (SimState.init testEnvDefineFail).prev_prices ∧
      s2.prev_asset_valtns =
        (SimState.init testEnvDefineFail).prev_asset_valtns ∧
      s2.prev_prtfl_valtn =
        (SimState.init testEnvDefineFail).prev_prtfl_valtn ∧
      s2.solver_attrs = (SimState.init testEnvDefineFail).solver_attrs ∧
      s2.crnt_time = (SimState.init testEnvDefineFail).crnt_time +
        testEnvDefineFail.min_reblncng_intrvl_day) :=
  ⟨⟨by decide, rfl⟩,
   simulation_step_failure_frame testEnvDefineFail
     (SimState.init testEnvDefineFail) (by decide) (Or.inl rfl)⟩

/-- C9 amended: whenever the simulation runs with the
IdenticalDistributionTest trigger strategy and a previous price window
exists (so a diagnostic row is produced), the completed iteration
appends the diagnostic row to the history under the current timestamp,
not under the previous timestamp; only the expected-track series get
their freshly appended row re-indexed to the previous timestamp. -/
theorem simulation_records_trigger_diag_at_crnt_time
    (E : SimEnv) (s : SimState)
    (adTest ksTest : List ℚ → List ℚ → ℚ) (calcReturns : List ℚ → List ℚ)
    (sliceFn : WindowBounds → PriceFrame) (method : String) (t : ℚ)
    (w : WindowBounds)
    (hE : E.trigger = fun ct cp pp _ =>
      IdenticalDistributionTest.assess adTest ksTest calcReturns method t ct
        (sliceFn cp) (pp.map sliceFn))
    (hin : s.crnt_time ∈ E.prices_index)
    (hprev : s.prev_prices = some w) :
    ∀ s2, Simulation.step E s = some s2 →
      s2.hist.idntcl_dstrbtn_prob = s.hist.idntcl_dstrbtn_prob ++
        [(s.crnt_time, IdenticalDistributionTest.probs adTest ksTest
          calcReturns method
          (sliceFn (s.crnt_time - E.window_day, s.crnt_time - 1))
          (sliceFn w))] := by
  intro s2 hstep
  unfold Simulation.step at hstep
  rw [if_pos hin, hE] at hstep
  simp only [hprev, Option.map_some, IdenticalDistributionTest.assess,
    Option.toList_some] at hstep
  split at hstep
  · replace hstep := Option.some.inj hstep
    subst hstep
    split <;> rfl
  · split at hstep
    · replace hstep := Option.some.inj hstep
      subst hstep
      split <;> rfl
    · split at hstep
      · replace hstep := Option.some.inj hstep
        subst hstep
        split <;> rfl
      · split at hstep
        · cases hstep
        · replace hstep := Option.some.inj hstep
          subst hstep
          split <;> rfl

/-- A concrete one-asset price slice for exercising the trigger path. -/
def testPriceSlice : WindowBounds → PriceFrame := fun _ => [("A", [1, 1])]

/-- A concrete environment whose trigger is the
IdenticalDistributionTest strategy (Anderson-Darling method, external
test evaluating to p-value 1, threshold 0), with a defining problem and
a solver that reports True. -/
def testEnvId : SimEnv :=
  { prices_index := [0, 1]
    start_time := 0
    end_time := 1
    init_prtfl_valtn := 100
    window_day := 28
    min_reblncng_intrvl_day := 1
    trigger := fun ct cp pp _ =>
      IdenticalDistributionTest.assess (fun _ _ => 1) (fun _ _ => 1)
        (fun _ => []) "anderson_darling" 0 ct (testPriceSlice cp)
        (pp.map testPriceSlice)
    problemDefine := fun _ _ => true
    cncrtSolve := fun _ _ => some true
    solveAttrs := fun _ t =>
      { time := t, asset_props := [1], asset_expctd_returns := [0],
        asset_expctd_risks := [1], prtfl_expctd_return := 0,
        prtfl_expctd_risk := 1 }
    calcAssetObsrvdReturns := fun _ => [0]
    calcAssetObsrvdRisks := fun _ => [1]
    calcPrtflObsrvdReturn := fun _ _ => 0
    calcPrtflObsrvdRisk := fun _ _ => 1
    calcAssetPerfReturns := fun _ => [0] }

/-- The first two loop iterations of the concrete run: day 0 seeds and
rebalances, day 1 produces a trigger diagnostic. -/
def testRunTwoSteps : Option SimState :=
  (Simulation.step testEnvId (SimState.init testEnvId)).bind
    (fun s1 => Simulation.step testEnvId s1)

/-- C9 counterexample: in the concrete two-day run the only recorded
trigger diagnostic row carries the timestamp 1 of the step that produced
it, and not the previous timestamp 1 minus the minimum rebalancing
interval (that is, 0), contradicting the claim that the diagnostic is
recorded under the previous timestamp. -/
theorem simulation_diag_time_counterexample :
    testRunTwoSteps.map (fun s => s.hist.idntcl_dstrbtn_prob.map Prod.fst) =
      some [(1 : ℤ)] ∧
    testRunTwoSteps.map (fun s => s.hist.idntcl_dstrbtn_prob.map Prod.fst) ≠
      some [(1 : ℤ) - testEnvId.min_reblncng_intrvl_day] := by
  have h0 : testRunTwoSteps.map
      (fun s => s.hist.idntcl_dstrbtn_prob.map Prod.fst) = some [(1 : ℤ)] := rfl
  have hmin : testEnvId.min_reblncng_intrvl_day = 1 := rfl
  refine ⟨h0, ?_⟩
  rw [h0, hmin]
  decide

/-- A concrete state one day after a successful rebalancing at day 0,
with a previous window stored. -/
def testStatePrev : SimState :=
  { crnt_time := 1
    reblncng_time_list := [0]
    prev_prices := some ((-28 : ℤ), -1)
    prev_asset_valtns := some [100]
    prev_prtfl_valtn := some 100
    solver_attrs := some
      { time := 0, asset_props := [1], asset_expctd_returns := [0],
        asset_expctd_risks := [1], prtfl_expctd_return := 0,
        prtfl_expctd_risk := 1 }
    hist := DataHistory.empty }

/-- C9 witness: the amended statement at the concrete environment and
the concrete post-rebalancing state. -/
theorem simulation_records_trigger_diag_at_crnt_time_witness :
    ((testStatePrev.crnt_time ∈ testEnvId.prices_index) ∧
      testStatePrev.prev_prices = some ((-28 : ℤ), -1)) ∧
    (∀ s2, Simulation.step testEnvId testStatePrev = some s2 →
      s2.hist.idntcl_dstrbtn_prob = testStatePrev.hist.idntcl_dstrbtn_prob ++
        [(testStatePrev.crnt_time, IdenticalDistributionTest.probs
          (fun _ _ => 1) (fun _ _ => 1) (fun _ => []) "anderson_darling"
          (testPriceSlice (testStatePrev.crnt_time - testEnvId.window_day,
            testStatePrev.crnt_time - 1))
          (testPriceSlice ((-28 : ℤ), -1)))]) :=
  ⟨⟨by decide, rfl⟩,
   simulation_records_trigger_diag_at_crnt_time testEnvId testStatePrev
     (fun _ _ => 1) (fun _ _ => 1) (fun _ => []) testPriceSlice
     "anderson_darling" 0 ((-28 : ℤ), -1) rfl (by decide) rfl⟩

/-- Every completed iteration advances the current time: by one day when
the timestamp is absent from the price index, and by the minimum
rebalancing interval otherwise. -/
lemma Simulation.step_advance (E : SimEnv) : ∀ s s2 : SimState,
    Simulation.step E s = some s2 →
    s2.crnt_time = s.crnt_time +
      (if s.crnt_time ∈ E.prices_index then E.min_reblncng_intrvl_day
       else 1) := by
  intro s s2 hstep
  unfold Simulation.step at hstep
  by_cases hin : s.crnt_time ∈ E.prices_index
  · rw [if_pos hin] at hstep
    rw [if_pos hin]
    simp only [] at hstep
    split at hstep
    · replace hstep := Option.some.inj hstep
      subst hstep
      rfl
    · split at hstep
      · replace hstep := Option.some.inj hstep
        subst hstep
        rfl
      · split at hstep
        · replace hstep := Option.some.inj hstep
          subst hstep
          rfl
        · split at hstep
          · cases hstep
          · replace hstep := Option.some.inj hstep
            subst hstep
            rfl
  · rw [if_neg hin] at hstep
    rw [if_neg hin]
    replace hstep := Option.some.inj hstep
    subst hstep
    rfl

/-- With a minimum rebalancing interval of at least one day, every
completed iteration strictly advances the current time. -/
lemma Simulation.step_time (E : SimEnv)
    (h1 : 1 ≤ E.min_reblncng_intrvl_day) : ∀ s s2 : SimState,
    Simulation.step E s = some s2 → s.crnt_time + 1 ≤ s2.crnt_time := by
  intro s s2 hstep
  rw [Simulation.step_advance E s s2 hstep]
  split <;> omega

/-- With a minimum rebalancing interval of at least one day, the loop
exits within end_time + 1 - crnt_time iterations. -/
lemma Simulation.loop_total (E : SimEnv)
    (h1 : 1 ≤ E.min_reblncng_intrvl_day) : ∀ (n : ℕ) (s : SimState),
    (E.end_time + 1 - s.crnt_time).toNat ≤ n →
    Simulation.loop E n s ≠ none := by
  intro n
  induction n with
  | zero =>
    intro s hs
    unfold Simulation.loop
    rw [if_pos (by omega : E.end_time < s.crnt_time)]
    simp
  | succ m ih =>
    intro s hs
    unfold Simulation.loop
    by_cases hend : E.end_time < s.crnt_time
    · rw [if_pos hend]
      simp
    · rw [if_neg hend]
      cases hstep : Simulation.step E s with
      | none => simp
      | some s2 =>
        have hadv := Simulation.step_time E h1 s s2 hstep
        exact ih s2 (by omega)

/-- C10: with a minimum rebalancing interval of at least one day the
simulation loop terminates from any state, within end_time + 1 minus the
current time iterations, because each completed iteration advances the
current time by exactly one day when the timestamp is absent from the
price index and by the minimum rebalancing interval otherwise. -/
theorem simulation_loop_terminates (E : SimEnv)
    (h1 : 1 ≤ E.min_reblncng_intrvl_day) (s : SimState) :
    (∃ r, Simulation.loop E ((E.end_time + 1 - s.crnt_time).toNat) s =
      some r) ∧
    (∀ s2, Simulation.step E s = some s2 →
      (s.crnt_time ∉ E.prices_index → s2.crnt_time = s.crnt_time + 1) ∧
      (s.crnt_time ∈ E.prices_index →
        s2.crnt_time = s.crnt_time + E.min_reblncng_intrvl_day)) := by
  constructor
  · cases hl : Simulation.loop E ((E.end_time + 1 - s.crnt_time).toNat) s with
    | none => exact absurd hl (Simulation.loop_total E h1 _ s (le_refl _))
    | some r => exact ⟨r, rfl⟩
  · intro s2 hstep
    have hadv := Simulation.step_advance E s s2 hstep
    constructor
    · intro hout
      rw [hadv, if_neg hout]
    · intro hin
      rw [hadv, if_pos hin]

/-- C10 witness: termination at the concrete environment from its
initial state. -/
theorem simulation_loop_terminates_witness :
    (1 ≤ testEnvDefineFail.min_reblncng_intrvl_day) ∧
    ((∃ r, Simulation.loop testEnvDefineFail
        ((testEnvDefineFail.end_time + 1 -
          (SimState.init testEnvDefineFail).crnt_time).toNat)
        (SimState.init testEnvDefineFail) = some r) ∧
    (∀ s2, Simulation.step testEnvDefineFail
        (SimState.init testEnvDefineFail) = some s2 →
      ((SimState.init testEnvDefineFail).crnt_time ∉
          testEnvDefineFail.prices_index →
        s2.crnt_time = (SimState.init testEnvDefineFail).crnt_time + 1) ∧
      ((SimState.init testEnvDefineFail).crnt_time ∈
          testEnvDefineFail.prices_index →
        s2.crnt_time = (SimState.init testEnvDefineFail).crnt_time +
          testEnvDefineFail.min_reblncng_intrvl_day))) :=
  ⟨by decide,
   simulation_loop_terminates testEnvDefineFail (by decide)
     (SimState.init testEnvDefineFail)⟩
